import Mathlib

/-!
Verification of the compliance-analysis backend: a shallow embedding of the
analysis repository (backend/src/db, repositories/analysis-repository.ts), the
stats/analysis HTTP routes (backend/src/api/routes.ts) and the sandboxed
analyzer agent (agent/e2b-agent.ts), together with theorems settling the
spec claims about them.

Conventions of the embedding:
* TypeScript string-literal union fields (`severity`, `type`, `status`) are
  modelled as `String`: the mapping code reads them from database rows and
  JSON with unchecked casts, and the database stores them as text; the SQL
  `ORDER BY severity` therefore compares them as text.
* Database queries that can fail are modelled by an oracle `ok : Nat → Bool`
  giving the outcome of the k-th INSERT, or by an `Except` parameter for the
  outcome of a whole query; the transaction/rollback logic itself is
  translated from the source.
* JavaScript falsiness (`x || null`, `x || 'default'`) is modelled explicitly:
  `0` and `""` are falsy.
* Timestamps are integers (epoch milliseconds); `Number(...)` casts from rows
  are identities in this model.
-/

namespace ControlLayer

/-- In-memory `ComplianceFinding` (backend/src/types). Optional fields are
`Option`; `line`/`column` are numbers, the string-union fields are strings. -/
structure ComplianceFinding where
  id : String
  type : String
  severity : String
  message : String
  file : String
  line : Option Int
  column : Option Int
  code : Option String
  fixSuggestion : Option String
  ruleId : String
  ruleName : String
deriving DecidableEq

/-- The `stats` record of an `AnalysisResult`. -/
structure AnalysisStats where
  totalFiles : Nat
  totalFindings : Nat
  critical : Nat
  high : Nat
  medium : Nat
  low : Nat
  info : Nat
deriving DecidableEq

/-- In-memory `AnalysisResult` (backend/src/types). -/
structure AnalysisResult where
  id : String
  prNumber : Nat
  repoFullName : String
  status : String
  findings : List ComplianceFinding
  analyzedAt : Int
  duration : Nat
  stats : AnalysisStats
deriving DecidableEq

/-- One row of the `analyses` table (columns as in saveAnalysis's INSERT). -/
structure AnalysisRow where
  id : String
  pr_number : Nat
  repo_full_name : String
  status : String
  analyzed_at : Int
  duration : Nat
  total_files : Nat
  total_findings : Nat
  critical_count : Nat
  high_count : Nat
  medium_count : Nat
  low_count : Nat
  info_count : Nat
deriving DecidableEq

/-- One row of the `findings` table (columns as in saveAnalysis's INSERT);
nullable columns are `Option`. -/
structure FindingRow where
  id : String
  analysis_id : String
  type : String
  severity : String
  message : String
  file : String
  line : Option Int
  column : Option Int
  code : Option String
  fix_suggestion : Option String
  rule_id : String
  rule_name : String
deriving DecidableEq

/-- The two tables, each a list of rows in insertion order. -/
structure DBState where
  analyses : List AnalysisRow
  findings : List FindingRow
deriving DecidableEq

/-- JS `x || null` applied to an optional number: `0` is falsy, so
`finding.line || null` stores NULL for a zero line. -/
def jsOrNullNum (x : Option Int) : Option Int :=
  match x with
  | some 0 => none
  | v => v

/-- JS `x || null` applied to an optional string: `""` is falsy. -/
def jsOrNullStr (x : Option String) : Option String :=
  match x with
  | some "" => none
  | v => v

/-- The `analyses` row written by `saveAnalysis` for a result. -/
def analysisToRow (r : AnalysisResult) : AnalysisRow :=
  { id := r.id
    pr_number := r.prNumber
    repo_full_name := r.repoFullName
    status := r.status
    analyzed_at := r.analyzedAt
    duration := r.duration
    total_files := r.stats.totalFiles
    total_findings := r.stats.totalFindings
    critical_count := r.stats.critical
    high_count := r.stats.high
    medium_count := r.stats.medium
    low_count := r.stats.low
    info_count := r.stats.info }

/-- The `findings` row written by `saveAnalysis` for one finding: the INSERT
passes `finding.line || null`, `finding.column || null`, `finding.code || null`
and `finding.fixSuggestion || null`. -/
def findingToRow (analysisId : String) (f : ComplianceFinding) : FindingRow :=
  { id := f.id
    analysis_id := analysisId
    type := f.type
    severity := f.severity
    message := f.message
    file := f.file
    line := jsOrNullNum f.line
    column := jsOrNullNum f.column
    code := jsOrNullStr f.code
    fix_suggestion := jsOrNullStr f.fixSuggestion
    rule_id := f.ruleId
    rule_name := f.ruleName }

/-- The per-finding INSERT loop of `saveAnalysis`: the k-th INSERT succeeds
iff `ok k`; the first failure aborts the loop with the error. -/
def insertFindings (ok : Nat → Bool) (analysisId : String) :
    Nat → DBState → List ComplianceFinding → Except String DBState
  | _, db, [] => .ok db
  | k, db, f :: fs =>
    if ok k then
      insertFindings ok analysisId (k + 1)
        { db with findings := db.findings ++ [findingToRow analysisId f] } fs
    else .error "insert into findings failed"

/-- The body of `saveAnalysis`'s transaction: INSERT the analysis row
(query 0), then one INSERT per finding (queries 1, 2, ...). -/
def runInserts (ok : Nat → Bool) (db : DBState) (r : AnalysisResult) :
    Except String DBState :=
  if ok 0 then
    insertFindings ok r.id 1
      { db with analyses := db.analyses ++ [analysisToRow r] } r.findings
  else .error "insert into analyses failed"

/-- `AnalysisRepository.saveAnalysis`: BEGIN, run the inserts, COMMIT; on any
error, ROLLBACK (the database is left unchanged) and rethrow the error. -/
def saveAnalysis (ok : Nat → Bool) (db : DBState) (r : AnalysisResult) :
    DBState × Except String Unit :=
  match runInserts ok db r with
  | .ok db2 => (db2, .ok ())
  | .error e => (db, .error e)

/-- Strict character comparison by code point. -/
def charLtB (a b : Char) : Bool := decide (a.toNat < b.toNat)

/-- Strict lexicographic comparison of character lists. -/
def strLtB : List Char → List Char → Bool
  | [], [] => false
  | [], _ :: _ => true
  | _ :: _, [] => false
  | a :: as, b :: bs =>
    if charLtB a b then true
    else if charLtB b a then false
    else strLtB as bs

/-- Strict text comparison, as Postgres compares these ASCII text columns:
lexicographic by code point. -/
def stringLtB (s t : String) : Bool := strLtB s.toList t.toList

/-- SQL ascending comparison of nullable `line` columns: NULLs sort last. -/
def lineLeB : Option Int → Option Int → Bool
  | none, none => true
  | none, some _ => false
  | some _, none => true
  | some x, some y => decide (x ≤ y)

/-- One lexicographic step of an SQL `ORDER BY`: compare one key ascending,
fall through to the rest on equality. -/
def lexBB {α : Type} (ltB : α → α → Bool) (x y : α) (rest : Bool) : Bool :=
  if ltB x y then true
  else if ltB y x then false
  else rest

/-- The comparison implemented by `ORDER BY severity, file, line` in
`getAnalysis`: all three columns ascending, `severity` and `file` as text. -/
def rowLeB (a b : FindingRow) : Bool :=
  lexBB stringLtB a.severity b.severity
    (lexBB stringLtB a.file b.file (lineLeB a.line b.line))

/-- `rowLeB` as a relation, for use with `List.insertionSort`. -/
def rowLe (a b : FindingRow) : Prop := rowLeB a b = true

instance : DecidableRel rowLe := fun _ _ => inferInstanceAs (Decidable (_ = true))

/-- `AnalysisRepository.mapToFinding`: a row is copied back field by field,
with no transformation. -/
def mapToFinding (row : FindingRow) : ComplianceFinding :=
  { id := row.id
    type := row.type
    severity := row.severity
    message := row.message
    file := row.file
    line := row.line
    column := row.column
    code := row.code
    fixSuggestion := row.fix_suggestion
    ruleId := row.rule_id
    ruleName := row.rule_name }

/-- `AnalysisRepository.mapToAnalysisResult`. -/
def mapToAnalysisResult (analysis : AnalysisRow) (findings : List FindingRow) :
    AnalysisResult :=
  { id := analysis.id
    prNumber := analysis.pr_number
    repoFullName := analysis.repo_full_name
    status := analysis.status
    findings := findings.map mapToFinding
    analyzedAt := analysis.analyzed_at
    duration := analysis.duration
    stats :=
      { totalFiles := analysis.total_files
        totalFindings := analysis.total_findings
        critical := analysis.critical_count
        high := analysis.high_count
        medium := analysis.medium_count
        low := analysis.low_count
        info := analysis.info_count } }

/-- `AnalysisRepository.getAnalysis`: SELECT the analysis row by id (absent
rows give `null`, not an error), then SELECT its findings with
`ORDER BY severity, file, line`, and reassemble. -/
def getAnalysis (db : DBState) (id : String) : Option AnalysisResult :=
  match db.analyses.filter (fun a => a.id == id) with
  | [] => none
  | a :: _ =>
    some (mapToAnalysisResult a
      (List.insertionSort rowLe (db.findings.filter (fun f => f.analysis_id == id))))

/-- `AnalysisRepository.getRecentAnalyses`: analyses ordered by `analyzed_at`
DESC with a LIMIT; each one's findings are read with no ORDER BY clause
(table order). -/
def getRecentAnalyses (db : DBState) (limit : Nat) : List AnalysisResult :=
  ((List.insertionSort (fun a b : AnalysisRow => b.analyzed_at ≤ a.analyzed_at)
      db.analyses).take limit).map
    (fun row => mapToAnalysisResult row
      (db.findings.filter (fun f => f.analysis_id == row.id)))

/-- A database error as seen by the catch blocks: pg errors carry an optional
SQLSTATE `code` (`42P01` = undefined table). -/
structure DbError where
  code : Option String
deriving DecidableEq

/-- The row shape produced by `getStats`'s aggregate query (INTEGER casts).
`avg_duration` is NUMERIC; it is kept as a natural number here. -/
structure StatsRow where
  total_analyses : Nat
  total_findings : Nat
  total_critical : Nat
  total_high : Nat
  total_medium : Nat
  total_low : Nat
  total_info : Nat
  avg_duration : Nat
deriving DecidableEq

/-- What `getStats` returns: the source's `defaultStats` object carries these
fields as strings, and a successful query carries numbers which the route then
stringifies and re-parses; both are modelled as strings here. -/
structure StatsOut where
  total_analyses : String
  total_findings : String
  total_critical : String
  total_high : String
  total_medium : String
  total_low : String
  total_info : String
  avg_duration : String
deriving DecidableEq

/-- The `defaultStats` literal of `AnalysisRepository.getStats`. -/
def defaultStats : StatsOut :=
  { total_analyses := "0"
    total_findings := "0"
    total_critical := "0"
    total_high := "0"
    total_medium := "0"
    total_low := "0"
    total_info := "0"
    avg_duration := "0" }

/-- `AnalysisRepository.getStats`, over the outcome of its aggregate query:
empty row sets give `defaultStats`; a `42P01`/`42P02` error (table not
provisioned) gives `defaultStats` with a warning; any other error also gives
`defaultStats` instead of throwing. -/
def getStats (outcome : Except DbError (List StatsRow)) : StatsOut :=
  match outcome with
  | .ok rows =>
    match rows with
    | [] => defaultStats
    | row :: _ =>
      { total_analyses := toString row.total_analyses
        total_findings := toString row.total_findings
        total_critical := toString row.total_critical
        total_high := toString row.total_high
        total_medium := toString row.total_medium
        total_low := toString row.total_low
        total_info := toString row.total_info
        avg_duration := toString row.avg_duration }
  | .error e =>
    if e.code == some "42P01" || e.code == some "42P02" then defaultStats
    else defaultStats

/-- The body of the GET /api/stats response. -/
structure RouteStats where
  totalAnalyses : Nat
  totalFindings : Nat
  criticalIssues : Nat
  highIssues : Nat
  mediumIssues : Nat
  lowIssues : Nat
  infoIssues : Nat
  avgDuration : Nat
deriving DecidableEq

/-- A decimal digit. -/
def isDigitB (c : Char) : Bool := decide (48 ≤ c.toNat) && decide (c.toNat ≤ 57)

/-- Value of a decimal digit string. -/
def digitsVal (cs : List Char) : Nat :=
  cs.foldl (fun n c => n * 10 + (c.toNat - 48)) 0

/-- The route's `safeParseInt`: `parseInt(String(value || '0'), 10)` with a
NaN fallback of 0. Inputs here are decimal-digit strings or `""` (falsy,
replaced by `'0'`); anything unparseable yields 0. -/
def safeParseInt (s : String) : Nat :=
  match s.toList with
  | [] => 0
  | cs => if cs.all isDigitB then digitsVal cs else 0

/-- The all-zero stats body the route falls back to. -/
def zeroRouteStats : RouteStats :=
  { totalAnalyses := 0
    totalFindings := 0
    criticalIssues := 0
    highIssues := 0
    mediumIssues := 0
    lowIssues := 0
    infoIssues := 0
    avgDuration := 0 }

/-- GET /api/stats: call `getStats`, safely parse every field, and respond
with HTTP 200; the catch block also responds 200 with `zeroRouteStats`
(unreachable here since `getStats` is total). -/
def statsRoute (outcome : Except DbError (List StatsRow)) : Nat × RouteStats :=
  let stats := getStats outcome
  (200,
    { totalAnalyses := safeParseInt stats.total_analyses
      totalFindings := safeParseInt stats.total_findings
      criticalIssues := safeParseInt stats.total_critical
      highIssues := safeParseInt stats.total_high
      mediumIssues := safeParseInt stats.total_medium
      lowIssues := safeParseInt stats.total_low
      infoIssues := safeParseInt stats.total_info
      avgDuration := safeParseInt stats.avg_duration })

/-- GET /api/analyses/:id: 404 with no data when `getAnalysis` returns null,
200 with the analysis otherwise. -/
def analysisIdRoute (db : DBState) (id : String) : Nat × Option AnalysisResult :=
  match getAnalysis db id with
  | none => (404, none)
  | some a => (200, some a)

/-- Modelled from the spec: the Aggregator's stats computation is not among
the provided sources (only the repository and agent are); per the spec it
recomputes every count from the deduplicated findings list, never
incrementally. -/
def computeStats (totalFiles : Nat) (findings : List ComplianceFinding) :
    AnalysisStats :=
  { totalFiles := totalFiles
    totalFindings := findings.length
    critical := (findings.filter (fun f => f.severity == "critical")).length
    high := (findings.filter (fun f => f.severity == "high")).length
    medium := (findings.filter (fun f => f.severity == "medium")).length
    low := (findings.filter (fun f => f.severity == "low")).length
    info := (findings.filter (fun f => f.severity == "info")).length }

/-- The spec's AnalysisResult invariant. -/
def statsInvariant (r : AnalysisResult) : Prop :=
  r.stats.totalFindings = r.findings.length ∧
    r.stats.critical + r.stats.high + r.stats.medium + r.stats.low +
      r.stats.info = r.stats.totalFindings

instance (r : AnalysisResult) : Decidable (statsInvariant r) :=
  inferInstanceAs (Decidable (_ ∧ _))

/-- A severity string is one of the five legal values. -/
def validSeverity (s : String) : Bool :=
  s == "critical" || s == "high" || s == "medium" || s == "low" || s == "info"

namespace E2B

/-- A JSON value, for the `JSON.parse` result fed to the output parser. -/
inductive Json where
  | null : Json
  | bool : Bool → Json
  | num : Int → Json
  | str : String → Json
  | arr : List Json → Json
  | obj : List (String × Json) → Json

/-- JS truthiness of a JSON value. -/
def jsTruthy : Json → Bool
  | .null => false
  | .bool b => b
  | .num n => decide (n ≠ 0)
  | .str s => s != ""
  | .arr _ => true
  | .obj _ => true

/-- JS string coercion of a JSON value (as used by `String(...)` and template
literals); arrays and objects are approximated, no claim depends on them. -/
def jsToString : Json → String
  | .null => "null"
  | .bool b => if b then "true" else "false"
  | .num n => toString n
  | .str s => s
  | .arr _ => ""
  | .obj _ => "[object Object]"

/-- Property lookup on an object, first binding wins. -/
def lookupField : List (String × Json) → String → Option Json
  | [], _ => none
  | (k, v) :: rest, key => if k == key then some v else lookupField rest key

/-- `x.k` for a non-null value: objects look the key up, primitives yield
undefined (`none`). Access on `null` throws; callers handle that case
separately. -/
def fld : Json → String → Option Json
  | .obj kvs, key => lookupField kvs key
  | _, _ => none

/-- `(v) || dflt` then string coercion, as in `String(finding.message || '')`
and `(finding.type as ...) || 'security'`. -/
def jsFieldOr (v : Option Json) (dflt : String) : String :=
  match v with
  | some j => if jsTruthy j then jsToString j else dflt
  | none => dflt

/-- `finding.line as number | undefined`: kept when the runtime value is a
number, undefined otherwise. -/
def jsNumField (v : Option Json) : Option Int :=
  match v with
  | some (.num n) => some n
  | _ => none

/-- `finding.code as string | undefined`: kept when the runtime value is a
string, undefined otherwise. -/
def jsStrField (v : Option Json) : Option String :=
  match v with
  | some (.str s) => some s
  | _ => none

/-- The result object of `sandbox.runPythonCode`; all fields optional. -/
structure ExecResult where
  text : Option String
  stdout : Option String
  stderr : Option String
deriving DecidableEq

/-- JS `a || b` on an optional string against a string default:
`""` is falsy and falls through. -/
def jsOrStr (a : Option String) (b : String) : String :=
  match a with
  | some s => if s == "" then b else s
  | none => b

/-- `typeof result === 'string' ? result : (result.text || result.stdout || '')`. -/
def outputOf : Sum String ExecResult → String
  | .inl s => s
  | .inr r => jsOrStr r.text (jsOrStr r.stdout "")

/-- The ten characters of the literal part of the findings regex. -/
def findingsPat : List Char := "\"findings\"".toList

/-- Positions where a character occurs in the list. -/
def positionsOf (s : List Char) (c : Char) : List Nat :=
  (List.range s.length).filter (fun i => s.get? i == some c)

/-- Positions where the literal `"findings"` occurs. -/
def patPositions (s : List Char) : List Nat :=
  (List.range s.length).filter (fun q => (s.drop q).take 10 == findingsPat)

/-- The JS regex match `output.match(/\x7b[\s\S]*"findings"[\s\S]*\x7d/)`:
the match, if any, starts at the first `LBRACE` that an occurrence of
`"findings"` follows with a `RBRACE` at least 10 characters after it, and —
both stars being greedy — extends to the last such closing brace in the
string. Returns the matched substring. -/
def findingsRegexMatch (str : String) : Option String :=
  let s := str.toList
  let closers := positionsOf s '}'
  let viable := (patPositions s).filter (fun q => closers.any (fun r => q + 10 ≤ r))
  match viable.max? with
  | none => none
  | some qm =>
    match ((positionsOf s '{').filter (fun i => i < qm)).min? with
    | none => none
    | some i0 =>
      match (closers.filter (fun r => qm + 10 ≤ r)).max? with
      | none => none
      | some r0 => some (String.mk ((s.drop i0).take (r0 - i0 + 1)))

/-- `parsed.findings` when it is an array: property access on `null` throws
(caught by the enclosing try, yielding no array), absent/non-array values
fail the `!parsed.findings || !Array.isArray(parsed.findings)` guard. -/
def findingsArrayOf : Json → Option (List Json)
  | .obj kvs =>
    match lookupField kvs "findings" with
    | some (.arr xs) => some xs
    | _ => none
  | _ => none

/-- One element of the findings array mapped to a `ComplianceFinding`
(e2b-agent.ts lines 350-362); `uuid` supplies the generated ids. A `null`
element throws on first property access (`none` here), which the enclosing
try converts to an empty result. -/
def buildFinding (uuid : String) (j : Json) : ComplianceFinding :=
  { id := uuid
    type := jsFieldOr (fld j "type") "security"
    severity := jsFieldOr (fld j "severity") "medium"
    message := jsFieldOr (fld j "message") ""
    file := jsFieldOr (fld j "file") ""
    line := jsNumField (fld j "line")
    column := jsNumField (fld j "column")
    code := jsStrField (fld j "code")
    fixSuggestion := jsStrField (fld j "fixSuggestion")
    ruleId := "e2b-" ++ jsFieldOr (fld j "type") "unknown"
    ruleName := jsFieldOr (fld j "ruleName") "E2B Analysis" }

/-- Map the array elements in order; a `null` element aborts with `none`
(the thrown TypeError). -/
def mapFindings (uuid : Nat → String) : Nat → List Json → Option (List ComplianceFinding)
  | _, [] => some []
  | i, j :: rest =>
    match j with
    | .null => none
    | _ => (mapFindings uuid (i + 1) rest).map (fun fs => buildFinding (uuid i) j :: fs)

/-- `E2BAgent.parseAnalysisOutput`: extract the findings JSON blob with the
regex (no match: warn and return `[]`), `JSON.parse` it (`jsonParse none`
models a parse exception, caught: `[]`), check `findings` is an array
(otherwise `[]`), and map the elements; any exception while mapping is also
caught and yields `[]`. -/
def parseAnalysisOutput (jsonParse : String → Option Json) (uuid : Nat → String)
    (output : String) : List ComplianceFinding :=
  match findingsRegexMatch output with
  | none => []
  | some matched =>
    match jsonParse matched with
    | none => []
    | some parsed =>
      match findingsArrayOf parsed with
      | none => []
      | some xs => (mapFindings uuid 0 xs).getD []

/-- The agent's mutable state: `this.sandbox`, holding the sandbox id when a
session exists. -/
structure AgentState where
  sandbox : Option String
deriving DecidableEq

/-- The environment an agent run interacts with: outcomes of sandbox
creation, of each setup script, of the analysis script, plus the JSON parser
and the uuid generator of the platform. -/
structure E2BEnv where
  createResult : Option String
  installOk : Bool
  configOk : Bool
  workspaceOk : Bool
  analysisExec : Except String (Sum String ExecResult)
  jsonParse : String → Option Json
  uuid : Nat → String

/-- `E2BAgent.setupMCPServers`: requires a sandbox, runs the install script
then the token-configuration script; any failure is rethrown. -/
def setupMCPServers (env : E2BEnv) (st : AgentState) : Except String Unit :=
  match st.sandbox with
  | none => .error "Sandbox not initialized"
  | some _ =>
    if env.installOk then
      if env.configOk then .ok ()
      else .error "config script failed"
    else .error "install script failed"

/-- `E2BAgent.initialize`: create the sandbox (creation failure or a failed
interface check throws), store it, set up the MCP servers; the catch block
converts every failure into the error `E2B sandbox initialization failed`. -/
def initAgent (env : E2BEnv) (st : AgentState) : Except String AgentState :=
  match env.createResult with
  | none => .error "E2B sandbox initialization failed"
  | some sid =>
    let st1 : AgentState := { st with sandbox := some sid }
    match setupMCPServers env st1 with
    | .ok _ => .ok st1
    | .error _ => .error "E2B sandbox initialization failed"

/-- `E2BAgent.setupWorkspace`: requires a sandbox and runs the file-writing
script; failure is not caught here. -/
def setupWorkspace (env : E2BEnv) (st : AgentState) : Except String Unit :=
  match st.sandbox with
  | none => .error "Sandbox not initialized"
  | some _ => if env.workspaceOk then .ok () else .error "workspace script failed"

/-- `E2BAgent.runAnalysis`: run the analysis script; an execution error is
caught and degrades to an empty findings list, a successful run's output goes
through `parseAnalysisOutput`. -/
def runAnalysis (env : E2BEnv) (st : AgentState) : Except String (List ComplianceFinding) :=
  match st.sandbox with
  | none => .error "Sandbox not initialized"
  | some _ =>
    match env.analysisExec with
    | .error _ => .ok []
    | .ok res => .ok (parseAnalysisOutput env.jsonParse env.uuid (outputOf res))

/-- `E2BAgent.analyzeWithMCP`: lazily initialize the sandbox (outside the try
block, so those errors propagate), then set up the workspace and run the
analysis; the catch block logs and rethrows, so their errors also
propagate. -/
def analyzeWithMCP (env : E2BEnv) (st : AgentState) :
    Except String (AgentState × List ComplianceFinding) :=
  match (match st.sandbox with
         | none => initAgent env st
         | some _ => .ok st) with
  | .error e => .error e
  | .ok st1 =>
    match setupWorkspace env st1 with
    | .error e => .error e
    | .ok _ =>
      match runAnalysis env st1 with
      | .error e => .error e
      | .ok fs => .ok (st1, fs)

/-- `sandbox.kill()` with an oracle outcome. -/
def killSandbox (killOk : Bool) : Except String Unit :=
  if killOk then .ok () else .error "kill failed"

/-- `E2BAgent.cleanup`: a no-op without a sandbox; otherwise kill it and
clear the handle, catching (and only logging) a kill failure — on failure the
handle is kept. -/
def cleanup (killOk : Bool) (st : AgentState) : Except String AgentState :=
  match st.sandbox with
  | none => .ok st
  | some _ =>
    match killSandbox killOk with
    | .ok _ => .ok { st with sandbox := none }
    | .error _ => .ok st

/-- `output.includes('error')`: the substring occurs somewhere. -/
def includesSubstr (output pat : String) : Bool :=
  let s := output.toList
  let p := pat.toList
  (List.range (s.length + 1)).any (fun q => (s.drop q).take p.length == p)

/-- `E2BAgent.fetchFileFromGitHub`: lazily initialize (errors propagate, this
happens before the try block), run the fetch script; inside the try, an
execution error is caught and returns `null`, and an output containing the
substring `error` anywhere — the script prints a JSON error object on
failure, but file content may equally contain the word — also returns
`null`; otherwise the raw output is returned. -/
def fetchFileFromGitHub (env : E2BEnv) (st : AgentState)
    (runOutcome : Except String (Sum String ExecResult)) :
    Except String (Option String) :=
  match (match st.sandbox with
         | none => initAgent env st
         | some _ => .ok st) with
  | .error e => .error e
  | .ok _ =>
    match runOutcome with
    | .error _ => .ok none
    | .ok res =>
      let output := outputOf res
      if includesSubstr output "error" then .ok none
      else .ok (some output)

end E2B

/-! ### Properties of the SQL ordering -/

lemma charLtB_conn {a b : Char} (h1 : charLtB a b = false)
    (h2 : charLtB b a = false) : a = b := by
  simp only [charLtB, decide_eq_false_iff_not, not_lt] at h1 h2
  exact Char.ext (UInt32.ext (Nat.le_antisymm h2 h1))

lemma charLtB_trans {a b c : Char} (h1 : charLtB a b = true)
    (h2 : charLtB b c = true) : charLtB a c = true := by
  simp only [charLtB, decide_eq_true_eq] at h1 h2 ⊢
  omega

lemma strLtB_conn : ∀ (xs ys : List Char), strLtB xs ys = false →
    strLtB ys xs = false → xs = ys := by
  intro xs
  induction xs with
  | nil =>
    intro ys h1 h2
    cases ys with
    | nil => rfl
    | cons b bs => simp [strLtB] at h1
  | cons a as ih =>
    intro ys h1 h2
    cases ys with
    | nil => simp [strLtB] at h2
    | cons b bs =>
      by_cases hab : charLtB a b = true
      · rw [strLtB, if_pos hab] at h1; simp at h1
      · by_cases hba : charLtB b a = true
        · rw [strLtB, if_pos hba] at h2; simp at h2
        · have hab' : charLtB a b = false := by simpa using hab
          have hba' : charLtB b a = false := by simpa using hba
          rw [strLtB, if_neg hab, if_neg hba] at h1
          rw [strLtB, if_neg hba, if_neg hab] at h2
          rw [charLtB_conn hab' hba', ih bs h1 h2]

lemma strLtB_trans : ∀ (xs ys zs : List Char), strLtB xs ys = true →
    strLtB ys zs = true → strLtB xs zs = true := by
  intro xs
  induction xs with
  | nil =>
    intro ys zs h1 h2
    cases ys with
    | nil => simp [strLtB] at h1
    | cons b bs =>
      cases zs with
      | nil => simp [strLtB] at h2
      | cons c cs => simp [strLtB]
  | cons a as ih =>
    intro ys zs h1 h2
    cases ys with
    | nil => simp [strLtB] at h1
    | cons b bs =>
      cases zs with
      | nil => simp [strLtB] at h2
      | cons c cs =>
        by_cases hab : charLtB a b = true
        · by_cases hbc : charLtB b c = true
          · rw [strLtB, if_pos (charLtB_trans hab hbc)]
          · by_cases hcb : charLtB c b = true
            · rw [strLtB, if_neg hbc, if_pos hcb] at h2; simp at h2
            · have hbc' : charLtB b c = false := by simpa using hbc
              have hcb' : charLtB c b = false := by simpa using hcb
              rw [← charLtB_conn hbc' hcb']
              rw [strLtB, if_pos hab]
        · by_cases hba : charLtB b a = true
          · rw [strLtB, if_neg hab, if_pos hba] at h1; simp at h1
          · have hab' : charLtB a b = false := by simpa using hab
            have hba' : charLtB b a = false := by simpa using hba
            have heq : a = b := charLtB_conn hab' hba'
            subst heq
            rw [strLtB, if_neg hab, if_neg hba] at h1
            by_cases hac : charLtB a c = true
            · rw [strLtB, if_pos hac]
            · by_cases hca : charLtB c a = true
              · rw [strLtB, if_neg hac, if_pos hca] at h2; simp at h2
              · rw [strLtB, if_neg hac, if_neg hca] at h2 ⊢
                exact ih bs cs h1 h2

lemma stringLtB_conn {s t : String} (h1 : stringLtB s t = false)
    (h2 : stringLtB t s = false) : s = t := by
  cases s with
  | mk sd =>
    cases t with
    | mk td => exact congrArg String.mk (strLtB_conn sd td h1 h2)

lemma stringLtB_trans {s t u : String} (h1 : stringLtB s t = true)
    (h2 : stringLtB t u = true) : stringLtB s u = true :=
  strLtB_trans s.toList t.toList u.toList h1 h2

lemma lineLeB_total (x y : Option Int) : lineLeB x y = true ∨ lineLeB y x = true := by
  cases x with
  | none =>
    cases y with
    | none => left; rfl
    | some b => right; rfl
  | some a =>
    cases y with
    | none => left; rfl
    | some b => simpa [lineLeB, decide_eq_true_eq] using Int.le_total a b

lemma lineLeB_trans {x y z : Option Int} (h1 : lineLeB x y = true)
    (h2 : lineLeB y z = true) : lineLeB x z = true := by
  cases x <;> cases y <;> cases z <;> simp_all [lineLeB, decide_eq_true_eq]
  omega

lemma lexBB_total {α : Type} (ltB : α → α → Bool) (x y : α) {r1 r2 : Bool}
    (h : r1 = true ∨ r2 = true) : lexBB ltB x y r1 = true ∨ lexBB ltB y x r2 = true := by
  by_cases h1 : ltB x y = true
  · left; simp [lexBB, h1]
  · by_cases h2 : ltB y x = true
    · right; simp [lexBB, h2]
    · rcases h with h | h
      · left; simp [lexBB, h1, h2, h]
      · right; simp [lexBB, h1, h2, h]

lemma lexBB_trans {α : Type} {ltB : α → α → Bool}
    (hconn : ∀ a b, ltB a b = false → ltB b a = false → a = b)
    (htr : ∀ a b c, ltB a b = true → ltB b c = true → ltB a c = true)
    {x y z : α} {r1 r2 r3 : Bool} (h : r1 = true → r2 = true → r3 = true) :
    lexBB ltB x y r1 = true → lexBB ltB y z r2 = true → lexBB ltB x z r3 = true := by
  intro h1 h2
  by_cases hxy : ltB x y = true
  · by_cases hyz : ltB y z = true
    · simp [lexBB, htr x y z hxy hyz]
    · by_cases hzy : ltB z y = true
      · rw [lexBB, if_neg hyz, if_pos hzy] at h2; simp at h2
      · have hyz' : ltB y z = false := by simpa using hyz
        have hzy' : ltB z y = false := by simpa using hzy
        have heq : y = z := hconn y z hyz' hzy'
        subst heq
        simp [lexBB, hxy]
  · by_cases hyx : ltB y x = true
    · rw [lexBB, if_neg hxy, if_pos hyx] at h1; simp at h1
    · have hxy' : ltB x y = false := by simpa using hxy
      have hyx' : ltB y x = false := by simpa using hyx
      have heq : x = y := hconn x y hxy' hyx'
      subst heq
      rw [lexBB, if_neg hxy, if_neg hyx] at h1
      by_cases hxz : ltB x z = true
      · simp [lexBB, hxz]
      · by_cases hzx : ltB z x = true
        · rw [lexBB, if_neg hxz, if_pos hzx] at h2; simp at h2
        · rw [lexBB, if_neg hxz, if_neg hzx] at h2 ⊢
          exact h h1 h2

lemma stringLtB_connAll : ∀ (a b : String), stringLtB a b = false →
    stringLtB b a = false → a = b :=
  fun _ _ h1 h2 => stringLtB_conn h1 h2

lemma stringLtB_transAll : ∀ (a b c : String), stringLtB a b = true →
    stringLtB b c = true → stringLtB a c = true :=
  fun _ _ _ h1 h2 => stringLtB_trans h1 h2

lemma rowLe_total (a b : FindingRow) : rowLe a b ∨ rowLe b a := by
  unfold rowLe rowLeB
  exact lexBB_total _ _ _ (lexBB_total _ _ _ (lineLeB_total _ _))

lemma rowLe_trans {a b c : FindingRow} (h1 : rowLe a b) (h2 : rowLe b c) :
    rowLe a c := by
  unfold rowLe rowLeB at *
  exact lexBB_trans stringLtB_connAll stringLtB_transAll
    (lexBB_trans stringLtB_connAll stringLtB_transAll
      (fun q1 q2 => lineLeB_trans q1 q2)) h1 h2

instance : IsTotal FindingRow rowLe := ⟨rowLe_total⟩

instance : IsTrans FindingRow rowLe := ⟨fun _ _ _ => rowLe_trans⟩

/-- The same comparison on in-memory findings (the shape `getAnalysis`
returns). -/
def findingLe (a b : ComplianceFinding) : Prop :=
  lexBB stringLtB a.severity b.severity
    (lexBB stringLtB a.file b.file (lineLeB a.line b.line)) = true

instance : DecidableRel findingLe := fun _ _ => inferInstanceAs (Decidable (_ = true))

/-! ### Behaviour of saveAnalysis and getAnalysis -/

lemma insertFindings_ok_eq (ok : Nat → Bool) (analysisId : String) :
    ∀ (fs : List ComplianceFinding) (k : Nat) (db db' : DBState),
      insertFindings ok analysisId k db fs = Except.ok db' →
      db'.analyses = db.analyses ∧
        db'.findings = db.findings ++ fs.map (findingToRow analysisId) := by
  intro fs
  induction fs with
  | nil =>
    intro k db db' h
    simp [insertFindings] at h
    subst h
    simp
  | cons f rest ih =>
    intro k db db' h
    by_cases hk : ok k = true
    · rw [insertFindings, if_pos hk] at h
      obtain ⟨h1, h2⟩ := ih (k + 1) _ db' h
      refine ⟨by simpa using h1, ?_⟩
      simp only at h2
      rw [h2]
      simp
    · rw [insertFindings, if_neg hk] at h
      cases h

lemma saveAnalysis_error_eq {ok : Nat → Bool} {db : DBState} {r : AnalysisResult}
    {db' : DBState} {e : String}
    (h : saveAnalysis ok db r = (db', Except.error e)) : db' = db := by
  unfold saveAnalysis at h
  cases hri : runInserts ok db r with
  | ok db2 => rw [hri] at h; simp at h
  | error e2 => rw [hri] at h; exact (Prod.mk.injEq _ _ _ _ ▸ h).1.symm ▸ rfl

lemma saveAnalysis_ok_eq {ok : Nat → Bool} {db : DBState} {r : AnalysisResult}
    {db' : DBState} (h : saveAnalysis ok db r = (db', Except.ok ())) :
    db'.analyses = db.analyses ++ [analysisToRow r] ∧
      db'.findings = db.findings ++ r.findings.map (findingToRow r.id) := by
  unfold saveAnalysis at h
  cases hri : runInserts ok db r with
  | error e2 => rw [hri] at h; simp at h
  | ok db2 =>
    rw [hri] at h
    have hdb : db2 = db' := by
      have := (Prod.mk.injEq _ _ _ _ ▸ h).1
      exact this
    subst hdb
    unfold runInserts at hri
    by_cases h0 : ok 0 = true
    · rw [if_pos h0] at hri
      obtain ⟨h1, h2⟩ := insertFindings_ok_eq ok r.id r.findings 1 _ _ hri
      exact ⟨by simpa using h1, by simpa using h2⟩
    · rw [if_neg h0] at hri
      cases hri

/-- No row of the table refers to this id. -/
def freshId (db : DBState) (id : String) : Bool :=
  db.analyses.all (fun a => a.id != id) && db.findings.all (fun f => f.analysis_id != id)

lemma filter_analyses_fresh (l : List AnalysisRow) (v : String)
    (h : l.all (fun a => a.id != v) = true) :
    l.filter (fun a => a.id == v) = [] := by
  rw [List.filter_eq_nil_iff]
  intro a ha
  have := (List.all_eq_true.mp h) a ha
  simpa using this

lemma filter_findings_fresh (l : List FindingRow) (v : String)
    (h : l.all (fun f => f.analysis_id != v) = true) :
    l.filter (fun f => f.analysis_id == v) = [] := by
  rw [List.filter_eq_nil_iff]
  intro a ha
  have := (List.all_eq_true.mp h) a ha
  simpa using this

lemma filter_map_findingToRow (id : String) (fs : List ComplianceFinding) :
    (fs.map (findingToRow id)).filter (fun f => f.analysis_id == id) =
      fs.map (findingToRow id) := by
  apply List.filter_eq_self.mpr
  intro a ha
  obtain ⟨f, _, rfl⟩ := List.mem_map.mp ha
  simp [findingToRow]

/-- After a successful, fresh `saveAnalysis`, `getAnalysis` finds exactly the
inserted analysis row and the inserted finding rows (sorted by the SQL
ordering). -/
lemma getAnalysis_after_save {ok : Nat → Bool} {db : DBState} {r : AnalysisResult}
    {db' : DBState} (hfresh : freshId db r.id = true)
    (hsave : saveAnalysis ok db r = (db', Except.ok ())) :
    getAnalysis db' r.id =
      some (mapToAnalysisResult (analysisToRow r)
        (List.insertionSort rowLe (r.findings.map (findingToRow r.id)))) := by
  obtain ⟨ha, hf⟩ := saveAnalysis_ok_eq hsave
  obtain ⟨hfa, hff⟩ := Bool.and_eq_true_iff.mp hfresh
  unfold getAnalysis
  rw [ha, hf, List.filter_append, List.filter_append]
  rw [filter_analyses_fresh _ _ hfa, filter_findings_fresh _ _ hff]
  rw [filter_map_findingToRow]
  simp [analysisToRow]

/-- A finding whose optional fields survive the write path: `0` lines/columns
and empty code/fixSuggestion strings are JS-falsy and stored as NULL. -/
def roundTripSafe (f : ComplianceFinding) : Bool :=
  f.line != some 0 && f.column != some 0 && f.code != some "" &&
    f.fixSuggestion != some ""

lemma jsOrNullNum_of_ne {x : Option Int} (h : x ≠ some 0) : jsOrNullNum x = x := by
  unfold jsOrNullNum
  split
  · exact absurd rfl h
  · rfl

lemma jsOrNullStr_of_ne {x : Option String} (h : x ≠ some "") : jsOrNullStr x = x := by
  unfold jsOrNullStr
  split
  · exact absurd rfl h
  · rfl

lemma mapToFinding_findingToRow (id : String) (f : ComplianceFinding)
    (h : roundTripSafe f = true) : mapToFinding (findingToRow id f) = f := by
  simp only [roundTripSafe, Bool.and_eq_true, bne_iff_ne, ne_eq] at h
  obtain ⟨⟨⟨h1, h2⟩, h3⟩, h4⟩ := h
  cases f
  simp_all [mapToFinding, findingToRow, jsOrNullNum_of_ne, jsOrNullStr_of_ne]

/-! ### Sample data used by witnesses and counterexamples -/

/-- A small finding literal. -/
def mkFinding (id sev file : String) (line : Option Int) : ComplianceFinding :=
  { id := id
    type := "security"
    severity := sev
    message := "m"
    file := file
    line := line
    column := none
    code := none
    fixSuggestion := none
    ruleId := "r"
    ruleName := "R" }

/-- A small analysis literal with stats recomputed from its findings. -/
def mkResult (id : String) (fs : List ComplianceFinding) : AnalysisResult :=
  { id := id
    prNumber := 1
    repoFullName := "o/r"
    status := "completed"
    findings := fs
    analyzedAt := 0
    duration := 5
    stats := computeStats 1 fs }

def rC3 : AnalysisResult :=
  mkResult "a1" [mkFinding "f1" "medium" "a.ts" (some 3), mkFinding "f2" "info" "a.ts" (some 1)]

def aRowC4 : AnalysisRow :=
  { id := "a1"
    pr_number := 1
    repo_full_name := "o/r"
    status := "completed"
    analyzed_at := 0
    duration := 5
    total_files := 1
    total_findings := 2
    critical_count := 0
    high_count := 0
    medium_count := 1
    low_count := 0
    info_count := 1 }

def fRowC4a : FindingRow :=
  { id := "f1"
    analysis_id := "a1"
    type := "security"
    severity := "medium"
    message := "m"
    file := "a.ts"
    line := some 1
    column := none
    code := none
    fix_suggestion := none
    rule_id := "r"
    rule_name := "R" }

def fRowC4b : FindingRow :=
  { fRowC4a with id := "f2", severity := "info", line := some 2 }

def dbC4 : DBState := ⟨[aRowC4], [fRowC4a, fRowC4b]⟩

/-- Severity rank under the spec's total order critical > high > medium >
low > info. -/
def sevRank (s : String) : Nat :=
  if s == "critical" then 4
  else if s == "high" then 3
  else if s == "medium" then 2
  else if s == "low" then 1
  else 0

/-- The ordering claim C4 asserts: severity descending under that total
order, then file ascending, then line ascending. -/
def specClaimedLe (a b : ComplianceFinding) : Prop :=
  sevRank b.severity < sevRank a.severity ∨
    (sevRank a.severity = sevRank b.severity ∧
      (stringLtB a.file b.file = true ∨ (a.file = b.file ∧ lineLeB a.line b.line = true)))

instance : DecidableRel specClaimedLe := fun _ _ =>
  inferInstanceAs (Decidable (_ ∨ _))

/-! ### Claim C1 -/

lemma countSev_sum (fs : List ComplianceFinding)
    (h : fs.all (fun f => validSeverity f.severity) = true) :
    (fs.filter (fun f => f.severity == "critical")).length +
      (fs.filter (fun f => f.severity == "high")).length +
      (fs.filter (fun f => f.severity == "medium")).length +
      (fs.filter (fun f => f.severity == "low")).length +
      (fs.filter (fun f => f.severity == "info")).length = fs.length := by
  induction fs with
  | nil => simp
  | cons f rest ih =>
    simp only [List.all_cons, Bool.and_eq_true] at h
    obtain ⟨hf, hrest⟩ := h
    have ih' := ih hrest
    simp only [validSeverity, Bool.or_eq_true, beq_iff_eq] at hf
    rcases hf with (((h | h) | h) | h) | h <;>
      simp [List.filter_cons, h] <;> omega

/-- C1. Stats computed by the aggregation path (modelled from the spec)
satisfy the invariant, and the invariant is preserved by a
saveAnalysis-then-getAnalysis round trip. -/
theorem claim_C1 :
    (∀ (totalFiles : Nat) (fs : List ComplianceFinding),
        fs.all (fun f => validSeverity f.severity) = true →
        (computeStats totalFiles fs).totalFindings = fs.length ∧
          (computeStats totalFiles fs).critical + (computeStats totalFiles fs).high +
            (computeStats totalFiles fs).medium + (computeStats totalFiles fs).low +
            (computeStats totalFiles fs).info = (computeStats totalFiles fs).totalFindings) ∧
    (∀ (ok : Nat → Bool) (db : DBState) (r : AnalysisResult) (db' : DBState)
        (r' : AnalysisResult),
        freshId db r.id = true → statsInvariant r →
        saveAnalysis ok db r = (db', Except.ok ()) →
        getAnalysis db' r.id = some r' → statsInvariant r') := by
  constructor
  · intro totalFiles fs h
    exact ⟨rfl, countSev_sum fs h⟩
  · intro ok db r db' r' hfresh hinv hsave hget
    rw [getAnalysis_after_save hfresh hsave] at hget
    obtain ⟨hinv1, hinv2⟩ := hinv
    injection hget with hget
    subst hget
    constructor
    · show r.stats.totalFindings = _
      rw [hinv1]
      show _ = ((List.insertionSort rowLe
          (r.findings.map (findingToRow r.id))).map mapToFinding).length
      rw [List.length_map,
        (List.perm_insertionSort rowLe (r.findings.map (findingToRow r.id))).length_eq,
        List.length_map]
    · exact hinv2

theorem claim_C1_witness :
    ((computeStats 2 [mkFinding "f" "high" "a.ts" (some 1)]).totalFindings = 1 ∧
      (computeStats 2 [mkFinding "f" "high" "a.ts" (some 1)]).critical +
        (computeStats 2 [mkFinding "f" "high" "a.ts" (some 1)]).high +
        (computeStats 2 [mkFinding "f" "high" "a.ts" (some 1)]).medium +
        (computeStats 2 [mkFinding "f" "high" "a.ts" (some 1)]).low +
        (computeStats 2 [mkFinding "f" "high" "a.ts" (some 1)]).info =
        (computeStats 2 [mkFinding "f" "high" "a.ts" (some 1)]).totalFindings) ∧
    Option.map (fun r' => decide (statsInvariant r'))
      (getAnalysis
        (saveAnalysis (fun _ => true) ⟨[], []⟩ (mkResult "w1" [mkFinding "f" "high" "a.ts" (some 1)])).1
        "w1") = some true := by
  constructor
  · exact (claim_C1.1 2 [mkFinding "f" "high" "a.ts" (some 1)]
      (by decide)).imp id id
  · cases hg : getAnalysis
        (saveAnalysis (fun _ => true) ⟨[], []⟩
          (mkResult "w1" [mkFinding "f" "high" "a.ts" (some 1)])).1 "w1" with
    | none => exact absurd hg (by decide)
    | some r' =>
      have hinv : statsInvariant r' :=
        claim_C1.2 (fun _ => true) ⟨[], []⟩
          (mkResult "w1" [mkFinding "f" "high" "a.ts" (some 1)]) _ r'
          (by decide) (by decide) rfl hg
      simp [decide_eq_true hinv]

/-! ### Claim C2 -/

/-- C2. saveAnalysis is atomic: on success the analysis row and every
finding row are present; on any insert failure the state is rolled back
unchanged (zero rows for the id) and the error is surfaced. -/
theorem claim_C2 (ok : Nat → Bool) (db : DBState) (r : AnalysisResult)
    (hfresh : freshId db r.id = true) :
    (∀ db', saveAnalysis ok db r = (db', Except.ok ()) →
        db'.analyses.filter (fun a => a.id == r.id) = [analysisToRow r] ∧
          db'.findings.filter (fun f => f.analysis_id == r.id) =
            r.findings.map (findingToRow r.id)) ∧
    (∀ db' e, saveAnalysis ok db r = (db', Except.error e) →
        db' = db ∧ db'.analyses.filter (fun a => a.id == r.id) = [] ∧
          db'.findings.filter (fun f => f.analysis_id == r.id) = []) := by
  obtain ⟨hfa, hff⟩ := Bool.and_eq_true_iff.mp hfresh
  constructor
  · intro db' h
    obtain ⟨ha, hf⟩ := saveAnalysis_ok_eq h
    rw [ha, hf, List.filter_append, List.filter_append,
      filter_analyses_fresh _ _ hfa, filter_findings_fresh _ _ hff,
      filter_map_findingToRow]
    exact ⟨by simp [analysisToRow], by simp⟩
  · intro db' e h
    have hdb := saveAnalysis_error_eq h
    subst hdb
    exact ⟨rfl, filter_analyses_fresh _ _ hfa, filter_findings_fresh _ _ hff⟩

theorem claim_C2_witness :
    freshId ⟨[], []⟩ (mkResult "w2" [mkFinding "f" "low" "b.ts" none]).id = true ∧
    ((saveAnalysis (fun k => k == 0) ⟨[], []⟩
        (mkResult "w2" [mkFinding "f" "low" "b.ts" none])).1 = (⟨[], []⟩ : DBState) ∧
      ((saveAnalysis (fun k => k == 0) ⟨[], []⟩
          (mkResult "w2" [mkFinding "f" "low" "b.ts" none])).1.analyses.filter
        (fun a => a.id == "w2") = [] ∧
        (saveAnalysis (fun k => k == 0) ⟨[], []⟩
            (mkResult "w2" [mkFinding "f" "low" "b.ts" none])).1.findings.filter
          (fun f => f.analysis_id == "w2") = [])) := by
  refine ⟨by decide, ?_⟩
  have h := (claim_C2 (fun k => k == 0) ⟨[], []⟩
      (mkResult "w2" [mkFinding "f" "low" "b.ts" none]) (by decide)).2
      (saveAnalysis (fun k => k == 0) ⟨[], []⟩
        (mkResult "w2" [mkFinding "f" "low" "b.ts" none])).1
      "insert into findings failed" rfl
  exact ⟨h.1, h.2.1, h.2.2⟩

/-! ### Claim C3 -/

/-- C3 is false as stated: findings are read back in the SQL order
(severity as text ascending), not in the saved sequence order; here a
successful save of findings ordered [medium, info] reads back in a
different order, so the round trip is not the identity. -/
theorem claim_C3_counterexample :
    (saveAnalysis (fun _ => true) ⟨[], []⟩ rC3).2 = Except.ok () ∧
    getAnalysis (saveAnalysis (fun _ => true) ⟨[], []⟩ rC3).1 rC3.id ≠ some rC3 := by
  exact ⟨rfl, by decide⟩

/-- C3 (amended). A fresh, successful save followed by getAnalysis returns
an analysis with the same scalar fields and stats, and the same findings as
a multiset, re-sorted by (severity text, file, line) ascending; individual
finding fields are preserved provided no optional field holds the JS-falsy
values 0 or the empty string. -/
theorem claim_C3 (ok : Nat → Bool) (db : DBState) (r : AnalysisResult) (db' : DBState)
    (hfresh : freshId db r.id = true)
    (hsafe : r.findings.all roundTripSafe = true)
    (hsave : saveAnalysis ok db r = (db', Except.ok ())) :
    ∃ r', getAnalysis db' r.id = some r' ∧
      r'.id = r.id ∧ r'.prNumber = r.prNumber ∧ r'.repoFullName = r.repoFullName ∧
      r'.status = r.status ∧ r'.analyzedAt = r.analyzedAt ∧ r'.duration = r.duration ∧
      r'.stats = r.stats ∧ r'.findings.Perm r.findings ∧
      r'.findings.Pairwise findingLe := by
  refine ⟨_, getAnalysis_after_save hfresh hsave, rfl, rfl, rfl, rfl, rfl, rfl, rfl, ?_, ?_⟩
  · have hmaps : (r.findings.map (findingToRow r.id)).map mapToFinding = r.findings := by
      rw [List.map_map]
      have hpt : ∀ f ∈ r.findings, (mapToFinding ∘ findingToRow r.id) f = id f := by
        intro f hf
        exact mapToFinding_findingToRow r.id f ((List.all_eq_true.mp hsafe) f hf)
      rw [List.map_congr_left hpt, List.map_id]
    have hperm : ((List.insertionSort rowLe (r.findings.map (findingToRow r.id))).map
        mapToFinding).Perm ((r.findings.map (findingToRow r.id)).map mapToFinding) :=
      (List.perm_insertionSort rowLe _).map mapToFinding
    rw [hmaps] at hperm
    exact hperm
  · have hsorted := List.sorted_insertionSort rowLe (r.findings.map (findingToRow r.id))
    exact List.pairwise_map.mpr (hsorted.imp (fun {a b} h => h))

theorem claim_C3_witness :
    ∃ r', getAnalysis
        (saveAnalysis (fun _ => true) ⟨[], []⟩
          (mkResult "w3" [mkFinding "f" "high" "c.ts" (some 2)])).1
        (mkResult "w3" [mkFinding "f" "high" "c.ts" (some 2)]).id = some r' ∧
      r'.id = (mkResult "w3" [mkFinding "f" "high" "c.ts" (some 2)]).id ∧
      r'.prNumber = 1 ∧ r'.repoFullName = "o/r" ∧ r'.status = "completed" ∧
      r'.analyzedAt = 0 ∧ r'.duration = 5 ∧
      r'.stats = (mkResult "w3" [mkFinding "f" "high" "c.ts" (some 2)]).stats ∧
      r'.findings.Perm (mkResult "w3" [mkFinding "f" "high" "c.ts" (some 2)]).findings ∧
      r'.findings.Pairwise findingLe :=
  claim_C3 (fun _ => true) ⟨[], []⟩ (mkResult "w3" [mkFinding "f" "high" "c.ts" (some 2)]) _
    (by decide) (by decide) rfl

/-! ### Claim C4 -/

/-- C4 is false as stated: `ORDER BY severity` compares the severity column
as text ascending, so an analysis with a medium and an info finding is read
back [info, medium] — not sorted by the claimed severity-descending order
(which demands medium before info). -/
theorem claim_C4_counterexample :
    Option.map (fun r => decide (r.findings.Pairwise specClaimedLe))
      (getAnalysis dbC4 "a1") = some false := by
  decide

/-- C4 (amended). getAnalysis returns findings sorted by severity as text
ascending, then file ascending, then line ascending with NULLs last
(alphabetically: critical, high, info, low, medium); getRecentAnalyses
applies no ORDER BY to findings and returns them in table order. -/
theorem claim_C4 :
    (∀ (db : DBState) (id : String) (r : AnalysisResult),
        getAnalysis db id = some r → r.findings.Pairwise findingLe) ∧
    (∀ (db : DBState) (limit : Nat) (r : AnalysisResult),
        r ∈ getRecentAnalyses db limit →
        r.findings =
          (db.findings.filter (fun f => f.analysis_id == r.id)).map mapToFinding) := by
  constructor
  · intro db id r hget
    unfold getAnalysis at hget
    cases hfa : db.analyses.filter (fun a => a.id == id) with
    | nil => rw [hfa] at hget; cases hget
    | cons a rest =>
      rw [hfa] at hget
      injection hget with hget
      subst hget
      have hsorted := List.sorted_insertionSort rowLe
        (db.findings.filter (fun f => f.analysis_id == id))
      exact List.pairwise_map.mpr (hsorted.imp (fun {a b} h => h))
  · intro db limit r hmem
    unfold getRecentAnalyses at hmem
    obtain ⟨row, _, rfl⟩ := List.mem_map.mp hmem
    rfl

theorem claim_C4_witness :
    Option.map (fun r => decide (r.findings.Pairwise findingLe))
      (getAnalysis dbC4 "a1") = some true := by
  cases hg : getAnalysis dbC4 "a1" with
  | none => exact absurd hg (by decide)
  | some r =>
    simp [decide_eq_true (claim_C4.1 dbC4 "a1" r hg)]

/-! ### Claim C5 -/

lemma getStats_error (e : DbError) : getStats (Except.error e) = defaultStats := by
  unfold getStats
  exact ite_self _

/-- C5. getStats never fails: any query error (unreachable database, missing
table) and the empty result set all yield the zero-valued defaultStats, and
GET /api/stats always responds 200 with a well-formed all-zero body in those
cases. -/
theorem claim_C5 (outcome : Except DbError (List StatsRow)) :
    (statsRoute outcome).1 = 200 ∧
    (∀ e, outcome = Except.error e →
        getStats outcome = defaultStats ∧ (statsRoute outcome).2 = zeroRouteStats) ∧
    (outcome = Except.ok [] →
        getStats outcome = defaultStats ∧ (statsRoute outcome).2 = zeroRouteStats) := by
  refine ⟨rfl, ?_, ?_⟩
  · intro e he
    subst he
    refine ⟨getStats_error e, ?_⟩
    show (statsRoute (Except.error e)).2 = zeroRouteStats
    unfold statsRoute
    rw [getStats_error e]
    decide
  · intro he
    subst he
    exact ⟨rfl, by decide⟩

theorem claim_C5_witness :
    (statsRoute (Except.error ⟨none⟩)).1 = 200 ∧
    getStats (Except.error ⟨none⟩) = defaultStats ∧
    (statsRoute (Except.error ⟨none⟩)).2 = zeroRouteStats :=
  ⟨(claim_C5 (Except.error ⟨none⟩)).1,
    ((claim_C5 (Except.error ⟨none⟩)).2.1 ⟨none⟩ rfl).1,
    ((claim_C5 (Except.error ⟨none⟩)).2.1 ⟨none⟩ rfl).2⟩

/-! ### Claim C6 -/

/-- C6. An absent analysis id yields null (not an error) from getAnalysis,
and the GET /api/analyses/:id route turns that into a 404. -/
theorem claim_C6 (db : DBState) (id : String)
    (habs : db.analyses.all (fun a => a.id != id) = true) :
    getAnalysis db id = none ∧ analysisIdRoute db id = (404, none) := by
  have hfil := filter_analyses_fresh _ _ habs
  have h1 : getAnalysis db id = none := by
    unfold getAnalysis
    rw [hfil]
  exact ⟨h1, by unfold analysisIdRoute; rw [h1]⟩

theorem claim_C6_witness :
    getAnalysis ⟨[], []⟩ "missing" = none ∧
    analysisIdRoute ⟨[], []⟩ "missing" = (404, none) :=
  claim_C6 ⟨[], []⟩ "missing" (by decide)

/-! ### Claim C7 -/

/-- An environment in which the sandbox session works but the analysis
script itself fails to execute. -/
def envExecFail : E2B.E2BEnv :=
  { createResult := some "sb"
    installOk := true
    configOk := true
    workspaceOk := true
    analysisExec := Except.error "python run failed"
    jsonParse := fun _ => none
    uuid := fun _ => "" }

/-- An environment in which the sandbox session cannot be created. -/
def envCreateFail : E2B.E2BEnv :=
  { envExecFail with createResult := none }

/-- C7 is false as stated: with a working session and workspace, a failure
to execute the analysis script inside the session is caught by runAnalysis
and silently converted to an empty findings list — the promise resolves with
no findings instead of rejecting. -/
theorem claim_C7_counterexample :
    envExecFail.analysisExec = Except.error "python run failed" ∧
    E2B.analyzeWithMCP envExecFail ⟨none⟩ = Except.ok (⟨some "sb"⟩, []) :=
  ⟨rfl, rfl⟩

/-- C7 (amended). Failures to acquire a session (sandbox creation or MCP
setup) and failures to materialize the workspace reject the analyzeWithMCP
promise; a failure to execute the analysis script itself is caught inside
runAnalysis and degrades to an empty findings list. -/
theorem claim_C7 (env : E2B.E2BEnv) :
    (env.createResult = none →
        E2B.analyzeWithMCP env ⟨none⟩ =
          Except.error "E2B sandbox initialization failed") ∧
    (env.installOk = false ∨ env.configOk = false →
        E2B.analyzeWithMCP env ⟨none⟩ =
          Except.error "E2B sandbox initialization failed") ∧
    (∀ sid, env.createResult = some sid → env.installOk = true →
        env.configOk = true → env.workspaceOk = false →
        E2B.analyzeWithMCP env ⟨none⟩ = Except.error "workspace script failed") ∧
    (∀ sid e, env.createResult = some sid → env.installOk = true →
        env.configOk = true → env.workspaceOk = true →
        env.analysisExec = Except.error e →
        E2B.analyzeWithMCP env ⟨none⟩ = Except.ok (⟨some sid⟩, [])) := by
  refine ⟨?_, ?_, ?_, ?_⟩
  · intro hc
    simp [E2B.analyzeWithMCP, E2B.initAgent, hc]
  · intro hic
    cases hc : env.createResult with
    | none => simp [E2B.analyzeWithMCP, E2B.initAgent, hc]
    | some sid =>
      rcases hic with hi | hi
      · simp [E2B.analyzeWithMCP, E2B.initAgent, E2B.setupMCPServers, hc, hi]
      · cases hin : env.installOk <;>
          simp [E2B.analyzeWithMCP, E2B.initAgent, E2B.setupMCPServers, hc, hi, hin]
  · intro sid hc hi hcf hw
    simp [E2B.analyzeWithMCP, E2B.initAgent, E2B.setupMCPServers,
      E2B.setupWorkspace, hc, hi, hcf, hw, Except.bind]
  · intro sid e hc hi hcf hw he
    simp [E2B.analyzeWithMCP, E2B.initAgent, E2B.setupMCPServers,
      E2B.setupWorkspace, E2B.runAnalysis, hc, hi, hcf, hw, he, Except.bind]

theorem claim_C7_witness :
    E2B.analyzeWithMCP envCreateFail ⟨none⟩ =
        Except.error "E2B sandbox initialization failed" ∧
    E2B.analyzeWithMCP envExecFail ⟨none⟩ = Except.ok (⟨some "sb"⟩, []) :=
  ⟨(claim_C7 envCreateFail).1 rfl,
    (claim_C7 envExecFail).2.2.2 "sb" "python run failed" rfl rfl rfl rfl rfl⟩

/-! ### Claim C8 -/

/-- C8. The output parser returns zero findings — and never throws — when
the regex finds no candidate JSON object, when JSON.parse fails on the
matched text, and when the parsed value has no findings array. -/
theorem claim_C8 (jsonParse : String → Option E2B.Json) (uuid : Nat → String)
    (output : String) :
    (E2B.findingsRegexMatch output = none →
        E2B.parseAnalysisOutput jsonParse uuid output = []) ∧
    (∀ m, E2B.findingsRegexMatch output = some m → jsonParse m = none →
        E2B.parseAnalysisOutput jsonParse uuid output = []) ∧
    (∀ m p, E2B.findingsRegexMatch output = some m → jsonParse m = some p →
        E2B.findingsArrayOf p = none →
        E2B.parseAnalysisOutput jsonParse uuid output = []) := by
  refine ⟨?_, ?_, ?_⟩
  · intro h
    simp [E2B.parseAnalysisOutput, h]
  · intro m h hp
    simp [E2B.parseAnalysisOutput, h, hp]
  · intro m p h hp hf
    simp [E2B.parseAnalysisOutput, h, hp, hf]

theorem claim_C8_witness :
    E2B.findingsRegexMatch "plain text with no json" = none ∧
    E2B.parseAnalysisOutput (fun _ => none) (fun _ => "")
      "plain text with no json" = [] :=
  ⟨by decide, (claim_C8 (fun _ => none) (fun _ => "") "plain text with no json").1
    (by decide)⟩

/-! ### Claim C9 -/

/-- C9. cleanup never propagates an error (its result is always ok), is a
no-op when no sandbox exists, and repeating it — after a successful kill or
after a failed one — leaves the state exactly where the first call left
it. -/
theorem claim_C9 (killOk : Bool) (st : E2B.AgentState) :
    (E2B.cleanup killOk st).isOk = true ∧
    E2B.cleanup killOk (⟨none⟩ : E2B.AgentState) = Except.ok ⟨none⟩ ∧
    (E2B.cleanup true st).bind (E2B.cleanup killOk) = E2B.cleanup true st ∧
    (E2B.cleanup false st).bind (E2B.cleanup false) = E2B.cleanup false st := by
  obtain ⟨sb⟩ := st
  cases sb <;> cases killOk <;>
    simp [E2B.cleanup, E2B.killSandbox, Except.bind, Except.isOk, Except.toBool]

/-! ### Claim C10 -/

/-- C10. fetchFileFromGitHub returns null whenever the sandbox output
contains the substring `error` anywhere — including a successful fetch whose
file content merely mentions the word — and returns null instead of throwing
when the sandbox call itself fails; only an output free of that substring is
returned. -/
theorem claim_C10 (env : E2B.E2BEnv) (sid : String)
    (runOutcome : Except String (Sum String E2B.ExecResult)) :
    (∀ e, runOutcome = Except.error e →
        E2B.fetchFileFromGitHub env ⟨some sid⟩ runOutcome = Except.ok none) ∧
    (∀ res, runOutcome = Except.ok res →
        E2B.includesSubstr (E2B.outputOf res) "error" = true →
        E2B.fetchFileFromGitHub env ⟨some sid⟩ runOutcome = Except.ok none) ∧
    (∀ res, runOutcome = Except.ok res →
        E2B.includesSubstr (E2B.outputOf res) "error" = false →
        E2B.fetchFileFromGitHub env ⟨some sid⟩ runOutcome =
          Except.ok (some (E2B.outputOf res))) := by
  refine ⟨?_, ?_, ?_⟩
  · intro e he
    simp [E2B.fetchFileFromGitHub, he, Except.bind]
  · intro res hres hinc
    simp [E2B.fetchFileFromGitHub, hres, hinc, Except.bind]
  · intro res hres hinc
    simp [E2B.fetchFileFromGitHub, hres, hinc, Except.bind]

theorem claim_C10_witness :
    E2B.fetchFileFromGitHub envExecFail ⟨some "sb"⟩
        (Except.ok (Sum.inl "// file content without error handling")) =
      Except.ok none ∧
    E2B.fetchFileFromGitHub envExecFail ⟨some "sb"⟩
        (Except.error "sandbox call rejected") = Except.ok none :=
  ⟨(claim_C10 envExecFail "sb" _).2.1 _ rfl (by decide),
    (claim_C10 envExecFail "sb" _).1 _ rfl⟩

end ControlLayer
